import Mathlib

/-!
Verification of the SolderVolumeAnalyzer core against its specification.

The development shallowly embeds the three data components of the
repository:

* `src/gerber_parser.py` — the Gerber command interpreter
  (`GerberParser.parse_file`, `GerberParser._create_pad_from_command`,
  `GerberParser._parse_aperture_definition`), embedded in namespace
  `Gerber`;
* `src/thickness_manager.py` — the thickness/group manager
  (`ThicknessManager`), embedded in namespace `Thick`;
* `src/volume_calculator.py` — the volume calculator
  (`VolumeCalculator`), embedded in namespace `Volume`.

Real numbers of the Python code (floats) are modelled as rationals;
the shapely library call `Point(x, y).buffer(radius)` is modelled as an
exact disc whose area is `pi * radius ^ 2` for a parameter `pi` threaded
through the parser, so every theorem about areas is stated for an
arbitrary (usually positive) rational `pi`.  Python dictionaries are
modelled as key-value lists with Python 3.7 ordering semantics
(assignment to an existing key keeps its position, a fresh key is
appended); Python sets of pad ids are modelled as lists of their
elements in iteration order.
-/

namespace SolderVolume

/-- Lookup in a Python dictionary modelled as a key-value list. -/
def dictLookup {κ α : Type} [DecidableEq κ] : List (κ × α) → κ → Option α
  | [], _ => none
  | (k, v) :: rest, key => if k = key then some v else dictLookup rest key

/-- Python dictionary assignment `d[key] = val`: an existing key keeps its
position and gets the new value, a fresh key is appended at the end. -/
def dictInsert {κ α : Type} [DecidableEq κ] : List (κ × α) → κ → α → List (κ × α)
  | [], key, val => [(key, val)]
  | (k, v) :: rest, key, val =>
      if k = key then (k, val) :: rest else (k, v) :: dictInsert rest key val

/-- Python dictionary deletion `del d[key]` (the uses in the source are
guarded by membership tests, so the missing-key `KeyError` case never
arises in the executions analysed here; on a missing key this model
removes nothing). -/
def dictErase {κ α : Type} [DecidableEq κ] : List (κ × α) → κ → List (κ × α)
  | [], _ => []
  | (k, v) :: rest, key => if k = key then rest else (k, v) :: dictErase rest key

/-- Python membership test `key in d`. -/
def dictContains {κ α : Type} [DecidableEq κ] (d : List (κ × α)) (key : κ) : Bool :=
  (dictLookup d key).isSome

namespace Gerber

/-- Aperture shape letter from an aperture-definition line: `C` (circle)
or `R` (rectangle), the only two letters accepted by the regex in
`GerberParser._parse_aperture_definition`. -/
inductive ApKind
  | C
  | R
deriving DecidableEq, Repr

/-- Aperture record built by `GerberParser._parse_aperture_definition`:
the dict `{'id': aperture_id, 'type': aperture_type, 'size': size}` with
an optional `'size_y'` entry when the definition carries a second
dimension.  The regex only matches unsigned decimal literals, but the
model allows any rational size; theorems carry positivity hypotheses
where they need them. -/
structure Aperture where
  id : Nat
  kind : ApKind
  size : ℚ
  size_y : Option ℚ
deriving DecidableEq, Repr

/-- Geometry objects the parser builds through shapely:
`Point(x, y).buffer(radius)` (a disc) and
`box(minx, miny, maxx, maxy)` (an axis-aligned rectangle). -/
inductive Geometry
  | disc (center : ℚ × ℚ) (radius : ℚ)
  | box (minx miny maxx maxy : ℚ)
deriving DecidableEq, Repr

/-- Area of a geometry object, as read from shapely's `geometry.area`;
the disc is modelled as exact with a parameter `pi` standing for the
area coefficient of `Point.buffer`. -/
def Geometry.area (pi : ℚ) : Geometry → ℚ
  | .disc _ radius => pi * radius ^ 2
  | .box minx miny maxx maxy => (maxx - minx) * (maxy - miny)

/-- The `PadInfo` dataclass of `src/gerber_parser.py` (the
`calculate_dimensions` method is not used by the parser itself, so
`length` and `width` stay at their dataclass defaults). -/
structure PadInfo where
  id : Nat
  shape_type : String
  coordinates : ℚ × ℚ
  geometry : Geometry
  area : ℚ
  volume : ℚ
  thickness : ℚ := 3 / 20
  length : ℚ := 0
  width : ℚ := 0
deriving DecidableEq, Repr

/-- Operation code carried at the end of a coordinate line (`D01` draw,
`D02` move, `D03` flash, or none).  `GerberParser.parse_file` never
inspects it: its regexes on a coordinate line extract only the `X` and
`Y` integers, so this field is recorded in the line model and ignored by
the embedded parser, exactly as in the source. -/
inductive OpCode
  | draw
  | move
  | flash
  | absent
deriving DecidableEq, Repr

/-- One stripped input line, classified the way the dispatch in
`GerberParser.parse_file` classifies it:

* `adddef a` — a line starting with `%ADD` that
  `_parse_aperture_definition` parses successfully into aperture `a`;
* `badAdd` — a line starting with `%ADD` that the regex rejects (the
  method returns `None` and the line is skipped);
* `dsel code` — a line starting with `D` and ending with `*` whose
  middle parses as the integer `code`;
* `coord x y op` — a line starting with `X` or `Y`; `x` and `y` are the
  optional signed integers extracted by the regexes
  `X([+-]?\d+)` and `Y([+-]?\d+)`, and `op` is the trailing operation
  code, which the source never reads;
* `fs i d` — a format-specification line (`%FS...`): it starts with
  `%` but not `%ADD`, is not a `D` line and is not a coordinate line,
  so `parse_file` matches no branch and skips it;
* `other` — any other line (blank lines, comments, unrecognised
  commands), likewise skipped. -/
inductive GLine
  | adddef (a : Aperture)
  | badAdd
  | dsel (code : Nat)
  | coord (x y : Option Int) (op : OpCode)
  | fs (intDigits decDigits : Nat)
  | other
deriving DecidableEq, Repr

/-- Embedding of `GerberParser._create_pad_from_command` (lines
143–209).  `selfPadsLen` is `len(self.pads)` at the moment of the call:
the id assigned at line 192 is `len(self.pads) + 1`, and `self.pads`
(initialised to `[]` in `__init__`, line 37) is never appended to
anywhere in the class, so during `parse_file` this argument is always
`0`.  A missing axis match contributes `0` (lines 153–154: the
`if x_match else 0` fallback); present raw integers are divided by
`1000000`.  Geometry `is_valid` checks of the source always succeed for
the discs and boxes built here and are not modelled as failures. -/
def create_pad_from_command (pi : ℚ) (selfPadsLen : Nat)
    (x0 y0 : Option Int) (ap : Aperture) : Option PadInfo :=
  if x0.isNone ∧ y0.isNone then none
  else
    let x : ℚ := match x0 with | some n => (n : ℚ) / 1000000 | none => 0
    let y : ℚ := match y0 with | some n => (n : ℚ) / 1000000 | none => 0
    match ap.kind with
    | .C =>
        let radius := ap.size / 2
        if radius ≤ 0 then none
        else
          let geometry := Geometry.disc (x, y) radius
          if geometry.area pi ≤ 0 then none
          else some { id := selfPadsLen + 1
                      shape_type := "circle"
                      coordinates := (x, y)
                      geometry := geometry
                      area := geometry.area pi
                      volume := geometry.area pi * (3 / 20) }
    | .R =>
        let width := ap.size
        let height := ap.size_y.getD width
        if width ≤ 0 ∨ height ≤ 0 then none
        else
          let geometry := Geometry.box (x - width / 2) (y - height / 2)
            (x + width / 2) (y + height / 2)
          if geometry.area pi ≤ 0 then none
          else some { id := selfPadsLen + 1
                      shape_type := "rectangle"
                      coordinates := (x, y)
                      geometry := geometry
                      area := geometry.area pi
                      volume := geometry.area pi * (3 / 20) }

/-- Mutable state of one run of `GerberParser.parse_file`: the aperture
table `self.apertures`, the local variable `current_aperture` (which
holds the aperture *record*, not its id), and the local list `pads`. -/
structure PState where
  apertures : List (Nat × Aperture)
  current : Option Aperture
  pads : List PadInfo
deriving DecidableEq, Repr

/-- One iteration of the line loop of `GerberParser.parse_file` (lines
54–90).  An aperture definition is inserted (overwriting silently); a
`D` line selects an aperture only when its code is a key of the table
(line 70), otherwise the previous selection is kept; a line starting
with `X` or `Y` attempts pad creation whenever some aperture is held,
appending the resulting pad if any; every other line is skipped. -/
def parseLine (pi : ℚ) (selfPadsLen : Nat) (st : PState) : GLine → PState
  | .adddef a => { st with apertures := dictInsert st.apertures a.id a }
  | .badAdd => st
  | .fs _ _ => st
  | .other => st
  | .dsel code =>
      match dictLookup st.apertures code with
      | some ap => { st with current := some ap }
      | none => st
  | .coord x y _op =>
      match st.current with
      | none => st
      | some ap =>
          match create_pad_from_command pi selfPadsLen x y ap with
          | some pad => { st with pads := st.pads ++ [pad] }
          | none => st

/-- Embedding of `GerberParser.parse_file` on an already-read list of
stripped lines: fold the line loop from the empty state (the method
resets `self.apertures = {}`, starts with `current_aperture = None` and
`pads = []`), and return the pad list.  `len(self.pads)` is `0`
throughout, see `create_pad_from_command`. -/
def parse_file (pi : ℚ) (lines : List GLine) : List PadInfo :=
  (lines.foldl (parseLine pi 0) { apertures := [], current := none, pads := [] }).pads

/-- Condition under which `create_pad_from_command` accepts the selected
aperture: a circle needs a positive size (so a positive radius), a
rectangle needs both dimensions positive (the second defaulting to the
first). -/
def aperturePositive (a : Aperture) : Bool :=
  match a.kind with
  | .C => decide (0 < a.size)
  | .R => decide (0 < a.size) && decide (0 < a.size_y.getD a.size)

/-- Number of lines of the stream that create a pad under the actual
semantics of `parse_file`: coordinate lines carrying at least one axis
value, reached while the held aperture satisfies `aperturePositive`,
with the aperture table and the held aperture threaded exactly as the
source threads them.  The trailing operation code plays no role. -/
def validLineCount : List (Nat × Aperture) → Option Aperture → List GLine → Nat
  | _, _, [] => 0
  | aps, cur, line :: rest =>
      match line with
      | .adddef a => validLineCount (dictInsert aps a.id a) cur rest
      | .dsel code =>
          match dictLookup aps code with
          | some ap => validLineCount aps (some ap) rest
          | none => validLineCount aps cur rest
      | .coord x y _ =>
          (match cur with
            | some ap => if (x.isSome || y.isSome) && aperturePositive ap then 1 else 0
            | none => 0) + validLineCount aps cur rest
      | _ => validLineCount aps cur rest

/-- Whether a line is a flash operation (a coordinate line whose
operation code is `D03`). -/
def GLine.isFlash : GLine → Bool
  | .coord _ _ .flash => true
  | _ => false

/-- Pad creation succeeds exactly when the line carries at least one
axis value and the selected aperture has positive dimensions — for a
positive area coefficient `pi`, the trailing area check of
`_create_pad_from_command` can never fire on dimensions that already
passed the positivity checks. -/
lemma create_pad_isSome (pi : ℚ) (hpi : 0 < pi) (n : Nat)
    (x0 y0 : Option Int) (ap : Aperture) :
    (create_pad_from_command pi n x0 y0 ap).isSome
      = ((x0.isSome || y0.isSome) && aperturePositive ap) := by
  rcases ap with ⟨i, k, s, sy⟩
  have hxy : (x0.isNone ∧ y0.isNone) ∨ (x0.isSome || y0.isSome) = true := by
    cases x0 <;> cases y0 <;> simp
  cases k with
  | C =>
    rcases hxy with ⟨hx, hy⟩ | hxy
    · simp [create_pad_from_command, hx, hy, Option.isNone_iff_eq_none.mp hx,
        Option.isNone_iff_eq_none.mp hy]
    · by_cases hs : s / 2 ≤ 0
      · have hs2 : ¬ (0 : ℚ) < s := by nlinarith
        cases x0 <;> cases y0 <;>
          simp [create_pad_from_command, aperturePositive, hs, hs2]
      · have hs2 : (0 : ℚ) < s := by nlinarith
        have harea : ¬ Geometry.area pi (Geometry.disc (0, 0) (s / 2)) ≤ 0 := by
          simp only [Geometry.area]
          push_neg
          positivity
        have harea2 : ¬ pi * (s / 2) ^ 2 ≤ 0 := by
          push_neg
          positivity
        cases x0 <;> cases y0 <;>
          simp [create_pad_from_command, aperturePositive, hs, hs2, Geometry.area, harea2]
  | R =>
    rcases hxy with ⟨hx, hy⟩ | hxy
    · simp [create_pad_from_command, hx, hy, Option.isNone_iff_eq_none.mp hx,
        Option.isNone_iff_eq_none.mp hy]
    · by_cases hwh : s ≤ 0 ∨ sy.getD s ≤ 0
      · have hs2 : ¬ ((0 : ℚ) < s ∧ 0 < sy.getD s) := by
          rcases hwh with h | h
          · intro hc
            nlinarith [hc.1]
          · intro hc
            nlinarith [hc.2]
        cases x0 <;> cases y0 <;>
          simp [create_pad_from_command, aperturePositive, hwh] <;>
          exact fun h => le_of_not_lt fun hc => hs2 ⟨h, hc⟩
      · push_neg at hwh
        obtain ⟨hw2, hh2⟩ := hwh
        have hwh3 : ¬ (s ≤ 0 ∨ sy.getD s ≤ 0) := by
          push_neg
          exact ⟨hw2, hh2⟩
        cases x0 <;> cases y0 <;>
          simp [create_pad_from_command, aperturePositive, hwh3, hw2, hh2] <;>
          · simp only [Geometry.area]
            nlinarith [mul_pos hw2 hh2]

/-- Generalised step lemma for the line loop: from any intermediate
state, the fold appends exactly `validLineCount` pads. -/
lemma parse_fold_length (pi : ℚ) (hpi : 0 < pi) (lines : List GLine) :
    ∀ st : PState,
      (lines.foldl (parseLine pi 0) st).pads.length
        = st.pads.length + validLineCount st.apertures st.current lines := by
  induction lines with
  | nil => intro st; simp [validLineCount]
  | cons line rest ih =>
    intro st
    cases line with
    | adddef a =>
      simpa [parseLine, validLineCount] using ih _
    | badAdd => simpa [parseLine, validLineCount] using ih _
    | fs i d => simpa [parseLine, validLineCount] using ih _
    | other => simpa [parseLine, validLineCount] using ih _
    | dsel code =>
      cases h : dictLookup st.apertures code with
      | none => simp [parseLine, validLineCount, h, ih]
      | some ap => simp [parseLine, validLineCount, h, ih]
    | coord x y op =>
      cases hc : st.current with
      | none => simp [parseLine, validLineCount, hc, ih]
      | some ap =>
        have hsome := create_pad_isSome pi hpi 0 x y ap
        cases hp : create_pad_from_command pi 0 x y ap with
        | none =>
          rw [hp] at hsome
          simp only [Option.isSome_none] at hsome
          simp [parseLine, validLineCount, hc, hp, ← hsome, ih]
        | some pad =>
          rw [hp] at hsome
          simp only [Option.isSome_some] at hsome
          have step : parseLine pi 0 st (GLine.coord x y op)
              = { st with pads := st.pads ++ [pad] } := by
            simp [parseLine, hc, hp]
          rw [List.foldl_cons, step, ih]
          simp only [validLineCount, hc, ← hsome]
          simp
          omega

end Gerber

namespace Thick

/-- The ThicknessGroup dataclass of `src/thickness_manager.py`.  The
Python pad-id set is modelled as the list of its elements in iteration
order; `created_at` (a datetime) is modelled as the value of a
monotone tick counter: every `datetime.now()` call in the source
consumes one tick. -/
structure ThicknessGroup where
  name : String
  pad_ids : List Int
  thickness : ℚ
  created_at : Nat
deriving DecidableEq, Repr

/-- The ThicknessChange undo record.  `set_thickness` stores
`list(pad_ids)` and the other operations store the set itself; both are
the same list of elements here.  `new_thickness = none` is the Python
`None` sentinel meaning "reset to default". -/
structure ThicknessChange where
  pad_ids : List Int
  old_thickness : List (Int × ℚ)
  new_thickness : Option ℚ
  timestamp : Nat
deriving DecidableEq, Repr

/-- Mutable state of a ThicknessManager: the `groups` dict, the
`pad_to_group` dict, the two stacks (Python lists, pushed and popped at
the tail), and the tick counter standing for the wall clock. -/
structure TMState where
  groups : List (String × ThicknessGroup)
  pad_to_group : List (Int × String)
  undo_stack : List ThicknessChange
  redo_stack : List ThicknessChange
  tick : Nat
deriving DecidableEq, Repr

/-- State after `ThicknessManager.__init__`. -/
def TMState.init : TMState := ⟨[], [], [], [], 0⟩

/-- Embedding of `ThicknessManager.set_thickness` (lines 223–257).  The
generated group name interpolates the thickness and the dict length at
entry (`f"Group_{thickness}um_{len(self.groups)}"`); the removal loop
takes each already-grouped pad out of its group (deleting groups that
become empty) while accumulating the prior thicknesses, but does not
touch `pad_to_group`; then the change record, the new group (one
`datetime.now()` each) and the index updates are applied, the change is
pushed and the redo stack cleared.  The lookup
`self.groups[self.pad_to_group[pad_id]]` raises KeyError in Python when
the index is dangling; no execution analysed in this file reaches that
case, and the model skips such a pad. -/
def set_thickness (pad_ids : List Int) (thickness : ℚ) (st : TMState) : TMState :=
  let group_name := "Group_" ++ toString thickness ++ "um_" ++ toString st.groups.length
  let step := fun (acc : TMState × List (Int × ℚ)) (pid : Int) =>
    match dictLookup acc.1.pad_to_group pid with
    | none => acc
    | some gname =>
        match dictLookup acc.1.groups gname with
        | none => acc
        | some g =>
            let old := acc.2 ++ [(pid, g.thickness)]
            let remaining := g.pad_ids.erase pid
            if remaining.isEmpty then
              ({ acc.1 with groups := dictErase acc.1.groups gname }, old)
            else
              ({ acc.1 with
                  groups := dictInsert acc.1.groups gname { g with pad_ids := remaining } },
               old)
  let s1 := (pad_ids.foldl step (st, [])).1
  let old_thicknesses := (pad_ids.foldl step (st, [])).2
  let change : ThicknessChange := ⟨pad_ids, old_thicknesses, some thickness, s1.tick⟩
  let s2 := { s1 with tick := s1.tick + 1 }
  let s3 := { s2 with
      groups := dictInsert s2.groups group_name ⟨group_name, pad_ids, thickness, s2.tick⟩,
      tick := s2.tick + 1 }
  let s4 := { s3 with
      pad_to_group := pad_ids.foldl (fun d pid => dictInsert d pid group_name) s3.pad_to_group }
  { s4 with undo_stack := s4.undo_stack ++ [change], redo_stack := [] }

/-- Embedding of `ThicknessManager.remove_group` (lines 74–97): returns
False on an unknown name; otherwise deletes every member pad's index
entry and the group, and pushes a change whose new-thickness is the
reset sentinel (the ThicknessChange constructor consumes one tick). -/
def remove_group (name : String) (st : TMState) : Bool × TMState :=
  match dictLookup st.groups name with
  | none => (false, st)
  | some g =>
      (true,
       { st with
          groups := dictErase st.groups name,
          pad_to_group := g.pad_ids.foldl (fun d pid => dictErase d pid) st.pad_to_group,
          undo_stack := st.undo_stack
            ++ [⟨g.pad_ids, g.pad_ids.map fun pid => (pid, g.thickness), none, st.tick⟩],
          redo_stack := [],
          tick := st.tick + 1 })

/-- Embedding of `ThicknessManager.undo` (lines 99–130).  For each pad
of the popped change, the pad is first removed from its current group
(deleting the group if it empties) and from the index; then, if the
change recorded a prior thickness for it, a fresh singleton group named
`f"Restored_{datetime.now().strftime('%H%M%S')}"` (modelled as
`"Restored_" ++ fmt tick` for the strftime oracle `fmt`, consuming one
tick, plus one more tick for the group's `created_at`) is inserted —
overwriting any existing group of the same name — and indexed.  The
popped change moves to the redo stack. -/
def undo (fmt : Nat → String) (st : TMState) : Option (List Int) × TMState :=
  match st.undo_stack.getLast? with
  | none => (none, st)
  | some change =>
      let st0 := { st with undo_stack := st.undo_stack.dropLast }
      let step := fun (acc : TMState × List Int) (pid : Int) =>
        let acc1 :=
          match dictLookup acc.1.pad_to_group pid with
          | none => acc
          | some gname =>
              match dictLookup acc.1.groups gname with
              | none => acc
              | some g =>
                  let remaining := g.pad_ids.erase pid
                  let s :=
                    if remaining.isEmpty then
                      { acc.1 with groups := dictErase acc.1.groups gname }
                    else
                      { acc.1 with
                          groups := dictInsert acc.1.groups gname { g with pad_ids := remaining } }
                  ({ s with pad_to_group := dictErase s.pad_to_group pid },
                   if acc.2.contains pid then acc.2 else acc.2 ++ [pid])
        match dictLookup change.old_thickness pid with
        | none => acc1
        | some oldth =>
            let gname := "Restored_" ++ fmt acc1.1.tick
            let s := { acc1.1 with tick := acc1.1.tick + 1 }
            let s := { s with
                groups := dictInsert s.groups gname ⟨gname, [pid], oldth, s.tick⟩,
                tick := s.tick + 1 }
            ({ s with pad_to_group := dictInsert s.pad_to_group pid gname },
             if acc1.2.contains pid then acc1.2 else acc1.2 ++ [pid])
      let res := change.pad_ids.foldl step (st0, [])
      (some res.2, { res.1 with redo_stack := res.1.redo_stack ++ [change] })

/-- Embedding of `ThicknessManager.redo` (lines 132–171).  The popped
change's prior thicknesses are re-captured from the current state; a
numeric new-thickness recreates one group named
`f"Redone_{...strftime('%H%M%S')}"` holding the change's whole pad
collection and indexes every pad to it, while the reset sentinel only
deletes the pads' index entries (without touching any group's pad set);
a fresh change is pushed onto the undo stack. -/
def redo (fmt : Nat → String) (st : TMState) : Option (List Int) × TMState :=
  match st.redo_stack.getLast? with
  | none => (none, st)
  | some change =>
      let s0 := { st with redo_stack := st.redo_stack.dropLast }
      let group_name := "Redone_" ++ fmt s0.tick
      let s1 := { s0 with tick := s0.tick + 1 }
      let old_thicknesses := change.pad_ids.foldl
        (fun old pid =>
          match dictLookup s1.pad_to_group pid with
          | none => old
          | some gname =>
              match dictLookup s1.groups gname with
              | none => old
              | some g => old ++ [(pid, g.thickness)])
        []
      let s2 :=
        match change.new_thickness with
        | some t =>
            let s := { s1 with
                groups := dictInsert s1.groups group_name
                  ⟨group_name, change.pad_ids, t, s1.tick⟩,
                tick := s1.tick + 1 }
            { s with
                pad_to_group := change.pad_ids.foldl
                  (fun d pid => dictInsert d pid group_name) s.pad_to_group }
        | none =>
            { s1 with
                pad_to_group := change.pad_ids.foldl
                  (fun d pid => dictErase d pid) s1.pad_to_group }
      (some change.pad_ids,
       { s2 with
          undo_stack := s2.undo_stack
            ++ [⟨change.pad_ids, old_thicknesses, change.new_thickness, s2.tick⟩],
          tick := s2.tick + 1 })

/-- Embedding of `ThicknessManager.get_pad_thickness` (lines 62–66):
the thickness of the pad's group, or the supplied default when the pad
is ungrouped.  A dangling index entry raises KeyError in Python; no
execution analysed in this file reaches that case, and the model
returns the default there. -/
def get_pad_thickness (st : TMState) (pad_id : Int) (default_thickness : ℚ) : ℚ :=
  match dictLookup st.pad_to_group pad_id with
  | some gname =>
      match dictLookup st.groups gname with
      | some g => g.thickness
      | none => default_thickness
  | none => default_thickness

/-- Embedding of `ThicknessManager.clear` (lines 173–178). -/
def clear (st : TMState) : TMState :=
  { st with groups := [], pad_to_group := [], undo_stack := [], redo_stack := [] }

/-- Serialization of a model timestamp to its decimal string, standing
for `datetime.isoformat` (which is injective on datetime values and
inverted exactly by `datetime.fromisoformat`). -/
def isoformat (t : Nat) : String :=
  String.mk ((Nat.digits 10 t).reverse.map Nat.digitChar)

/-- Inverse parse, standing for `datetime.fromisoformat`: fails (the
Python call raises ValueError, caught by load_from_file) unless the
string is well-formed. -/
def fromisoformat (s : String) : Option Nat :=
  if s.data.all Char.isDigit then
    some (Nat.ofDigits 10 ((s.data.map fun c => c.toNat - 48).reverse))
  else none

/-- One group object of the persisted JSON document, as written by
`save_to_file` lines 184–191: the keys `pad_ids` (a list), `thickness`
(a number) and `created_at` (an isoformat string). -/
structure SavedGroup where
  pad_ids : List Int
  thickness : ℚ
  created_at : String
deriving DecidableEq, Repr

/-- A parsed settings document, as far as `load_from_file` inspects it:
`groups = none` models a JSON document with no `groups` key (the access
`data['groups']` then raises KeyError); otherwise the name-keyed group
objects in document order. -/
structure SavedFile where
  groups : Option (List (String × SavedGroup))
deriving DecidableEq, Repr

/-- Outcome of opening and JSON-parsing the settings file:
`unreadable` (the open/read raises OSError) and `badJson` (json.load
raises ValueError) both fail before any manager field is touched;
`ok data` hands the parsed document to the load loop. -/
inductive LoadInput
  | unreadable
  | badJson
  | ok (data : SavedFile)
deriving DecidableEq, Repr

/-- The document `save_to_file` (lines 180–197) serializes: every group
in dict order with its pad-id list (`list(group.pad_ids)`), thickness
and isoformat timestamp.  The JSON text layer round-trips these values
exactly and is not modelled further. -/
def save_data (st : TMState) : SavedFile :=
  ⟨some (st.groups.map fun p => (p.1, ⟨p.2.pad_ids, p.2.thickness, isoformat p.2.created_at⟩))⟩

/-- The entry loop of `load_from_file` (lines 208–217): each group
object is deserialized (a malformed timestamp raises mid-loop, leaving
the manager partially populated and returning False) and inserted, and
each of its pads is indexed to it. -/
def load_groups_loop (st : TMState) : List (String × SavedGroup) → Bool × TMState
  | [] => (true, st)
  | (name, gd) :: rest =>
      match fromisoformat gd.created_at with
      | none => (false, st)
      | some ts =>
          let st1 := { st with
              groups := dictInsert st.groups name ⟨name, gd.pad_ids, gd.thickness, ts⟩ }
          let st2 := { st1 with
              pad_to_group := gd.pad_ids.foldl (fun d pid => dictInsert d pid name)
                st1.pad_to_group }
          load_groups_loop st2 rest

/-- Embedding of `ThicknessManager.load_from_file` (lines 199–221): a
failure at the read/parse stage returns False with the state untouched;
once the document is parsed, `groups` and `pad_to_group` are cleared
(lines 205–206) before the document is inspected, so a document without
a `groups` key returns False with the manager already cleared.  The
undo/redo stacks are never touched. -/
def load_from_file (st : TMState) (input : LoadInput) : Bool × TMState :=
  match input with
  | .unreadable => (false, st)
  | .badJson => (false, st)
  | .ok data =>
      let st0 := { st with groups := [], pad_to_group := [] }
      match data.groups with
      | none => (false, st0)
      | some entries => load_groups_loop st0 entries

/-- No pad id appears in the pad-id sets of two distinct groups. -/
def GroupsDisjoint (groups : List (String × ThicknessGroup)) : Prop :=
  ∀ p ∈ groups, ∀ q ∈ groups, p.1 ≠ q.1 → ∀ pid ∈ p.2.pad_ids, pid ∉ q.2.pad_ids

/-- Every pad in a group's set is indexed to that group. -/
def IndexComplete (st : TMState) : Prop :=
  ∀ p ∈ st.groups, ∀ pid ∈ p.2.pad_ids, dictLookup st.pad_to_group pid = some p.1

/-- Every indexed pad is in the pad-id set of the group it points to. -/
def IndexSound (st : TMState) : Prop :=
  ∀ e ∈ st.pad_to_group, ∃ g, dictLookup st.groups e.2 = some g ∧ e.1 ∈ g.pad_ids

instance (groups : List (String × ThicknessGroup)) : Decidable (GroupsDisjoint groups) := by
  unfold GroupsDisjoint
  infer_instance

instance (st : TMState) : Decidable (IndexComplete st) := by
  unfold IndexComplete
  infer_instance

instance (st : TMState) : Decidable (IndexSound st) := by
  unfold IndexSound
  infer_instance

/-- The consistency invariant of the spec, decidably: disjoint groups
and a two-way consistent pad-to-group index. -/
def consistent (st : TMState) : Bool :=
  decide (GroupsDisjoint st.groups ∧ IndexComplete st ∧ IndexSound st)

lemma digitChar_isDigit (d : Nat) (hd : d < 10) : (Nat.digitChar d).isDigit = true := by
  interval_cases d <;> decide

lemma digitChar_toNat (d : Nat) (hd : d < 10) : (Nat.digitChar d).toNat - 48 = d := by
  interval_cases d <;> decide

/-- The timestamp serialization round-trips exactly, as
`datetime.fromisoformat ∘ datetime.isoformat` does on datetimes. -/
lemma fromisoformat_isoformat (t : Nat) : fromisoformat (isoformat t) = some t := by
  have hd : ∀ d ∈ Nat.digits 10 t, d < 10 := fun d h =>
    Nat.digits_lt_base (by norm_num) h
  have hdata : (isoformat t).data = (Nat.digits 10 t).reverse.map Nat.digitChar := rfl
  have hall : ((Nat.digits 10 t).reverse.map Nat.digitChar).all Char.isDigit = true := by
    rw [List.all_eq_true]
    intro c hc
    obtain ⟨d, hdm, rfl⟩ := List.mem_map.mp hc
    exact digitChar_isDigit d (hd d (List.mem_reverse.mp hdm))
  unfold fromisoformat
  rw [hdata, if_pos hall, List.map_map]
  have hmap : ((Nat.digits 10 t).reverse.map ((fun c => c.toNat - 48) ∘ Nat.digitChar))
      = (Nat.digits 10 t).reverse := by
    have hid : ∀ d ∈ (Nat.digits 10 t).reverse,
        ((fun c : Char => c.toNat - 48) ∘ Nat.digitChar) d = d := by
      intro d hdm
      exact digitChar_toNat d (hd d (List.mem_reverse.mp hdm))
    calc ((Nat.digits 10 t).reverse.map ((fun c => c.toNat - 48) ∘ Nat.digitChar))
        = (Nat.digits 10 t).reverse.map id := List.map_congr_left hid
      _ = (Nat.digits 10 t).reverse := List.map_id _
  rw [hmap, List.reverse_reverse, Nat.ofDigits_digits]

lemma dictLookup_insert_self {κ α : Type} [DecidableEq κ]
    (d : List (κ × α)) (k : κ) (v : α) :
    dictLookup (dictInsert d k v) k = some v := by
  induction d with
  | nil => simp [dictInsert, dictLookup]
  | cons p rest ih =>
    obtain ⟨k1, v1⟩ := p
    by_cases h : k1 = k <;> simp [dictInsert, dictLookup, h, ih]

lemma dictLookup_insert_ne {κ α : Type} [DecidableEq κ]
    (d : List (κ × α)) (k k' : κ) (v : α) (h : k ≠ k') :
    dictLookup (dictInsert d k v) k' = dictLookup d k' := by
  induction d with
  | nil => simp [dictInsert, dictLookup, h]
  | cons p rest ih =>
    obtain ⟨k1, v1⟩ := p
    by_cases h1 : k1 = k
    · subst h1
      simp [dictInsert, dictLookup, h]
    · simp [dictInsert, dictLookup, h1, ih]

lemma dictInsert_of_not_mem {κ α : Type} [DecidableEq κ]
    (d : List (κ × α)) (k : κ) (v : α) (h : k ∉ d.map Prod.fst) :
    dictInsert d k v = d ++ [(k, v)] := by
  induction d with
  | nil => rfl
  | cons p rest ih =>
    obtain ⟨k1, v1⟩ := p
    simp only [List.map_cons, List.mem_cons, not_or] at h
    have hne : ¬ k1 = k := fun he => h.1 he.symm
    simp [dictInsert, hne, ih h.2]

lemma mem_dictInsert {κ α : Type} [DecidableEq κ]
    {e : κ × α} {d : List (κ × α)} {k : κ} {v : α} (h : e ∈ dictInsert d k v) :
    e = (k, v) ∨ e ∈ d := by
  induction d with
  | nil =>
    rw [show dictInsert ([] : List (κ × α)) k v = [(k, v)] from rfl] at h
    exact Or.inl (List.mem_singleton.mp h)
  | cons p rest ih =>
    obtain ⟨k1, v1⟩ := p
    by_cases h1 : k1 = k
    · subst h1
      rw [show dictInsert ((k1, v1) :: rest) k1 v = (k1, v) :: rest from by
        simp [dictInsert]] at h
      rcases List.mem_cons.mp h with h2 | h2
      · exact Or.inl h2
      · exact Or.inr (List.mem_cons_of_mem _ h2)
    · rw [show dictInsert ((k1, v1) :: rest) k v = (k1, v1) :: dictInsert rest k v from by
        simp [dictInsert, h1]] at h
      rcases List.mem_cons.mp h with h2 | h2
      · exact Or.inr (List.mem_cons.mpr (Or.inl h2))
      · rcases ih h2 with h3 | h3
        · exact Or.inl h3
        · exact Or.inr (List.mem_cons_of_mem _ h3)

lemma dictLookup_of_mem_nodup {κ α : Type} [DecidableEq κ]
    {d : List (κ × α)} {p : κ × α} (hnodup : (d.map Prod.fst).Nodup) (hp : p ∈ d) :
    dictLookup d p.1 = some p.2 := by
  induction d with
  | nil => cases hp
  | cons q rest ih =>
    obtain ⟨k1, v1⟩ := q
    rcases List.mem_cons.mp hp with h | h
    · subst h
      simp [dictLookup]
    · have hk : k1 ≠ p.1 := by
        intro he
        have : p.1 ∈ rest.map Prod.fst := List.mem_map_of_mem _ h
        rw [List.map_cons, List.nodup_cons] at hnodup
        exact hnodup.1 (he ▸ this)
      simp only [dictLookup, if_neg hk]
      exact ih (by rw [List.map_cons, List.nodup_cons] at hnodup; exact hnodup.2) h

lemma lookup_padFold_not_mem (pads : List Int) (n : String) (d : List (Int × String))
    (pid : Int) (h : pid ∉ pads) :
    dictLookup (pads.foldl (fun d2 p => dictInsert d2 p n) d) pid = dictLookup d pid := by
  induction pads generalizing d with
  | nil => rfl
  | cons a pads ih =>
    simp only [List.mem_cons, not_or] at h
    rw [List.foldl_cons, ih _ h.2, dictLookup_insert_ne _ _ _ _ fun he => h.1 he.symm]

lemma lookup_padFold_mem (pads : List Int) (n : String) (d : List (Int × String))
    (pid : Int) (h : pid ∈ pads) :
    dictLookup (pads.foldl (fun d2 p => dictInsert d2 p n) d) pid = some n := by
  induction pads generalizing d with
  | nil => cases h
  | cons a pads ih =>
    rw [List.foldl_cons]
    by_cases h2 : pid ∈ pads
    · exact ih _ h2
    · have ha : pid = a := by
        rcases List.mem_cons.mp h with h3 | h3
        · exact h3
        · exact absurd h3 h2
      subst ha
      rw [lookup_padFold_not_mem _ _ _ _ h2, dictLookup_insert_self]

lemma mem_padFold {pads : List Int} {n : String} {d : List (Int × String)}
    {e : Int × String} (h : e ∈ pads.foldl (fun d2 p => dictInsert d2 p n) d) :
    (e.1 ∈ pads ∧ e.2 = n) ∨ e ∈ d := by
  induction pads generalizing d with
  | nil => exact Or.inr h
  | cons a pads ih =>
    rw [List.foldl_cons] at h
    rcases ih h with h2 | h2
    · exact Or.inl ⟨List.mem_cons_of_mem _ h2.1, h2.2⟩
    · rcases mem_dictInsert h2 with h3 | h3
      · exact Or.inl ⟨by simp [h3], by simp [h3]⟩
      · exact Or.inr h3

lemma lookup_groupFold_not_mem (gs : List (String × ThicknessGroup))
    (d : List (Int × String)) (pid : Int) (h : ∀ p ∈ gs, pid ∉ p.2.pad_ids) :
    dictLookup
      (gs.foldl (fun d2 p => p.2.pad_ids.foldl (fun d3 q => dictInsert d3 q p.1) d2) d) pid
      = dictLookup d pid := by
  induction gs generalizing d with
  | nil => rfl
  | cons p gs ih =>
    rw [List.foldl_cons, ih _ fun q hq => h q (List.mem_cons_of_mem _ hq),
      lookup_padFold_not_mem _ _ _ _ (h p (List.mem_cons_self _ _))]

lemma lookup_groupFold_mem (gs : List (String × ThicknessGroup))
    (d : List (Int × String)) (p : String × ThicknessGroup) (pid : Int)
    (hp : p ∈ gs) (hpid : pid ∈ p.2.pad_ids)
    (hdisj : GroupsDisjoint gs) (hnodup : (gs.map Prod.fst).Nodup) :
    dictLookup
      (gs.foldl (fun d2 q => q.2.pad_ids.foldl (fun d3 r => dictInsert d3 r q.1) d2) d) pid
      = some p.1 := by
  revert hp hdisj hnodup
  induction gs generalizing d with
  | nil =>
    intro hp _ _
    cases hp
  | cons q gs ih =>
    intro hp hdisj hnodup
    rw [List.foldl_cons]
    rcases List.mem_cons.mp hp with hq | hq
    · subst hq
      have hnot : ∀ r ∈ gs, pid ∉ r.2.pad_ids := by
        intro r hr
        have hne : p.1 ≠ r.1 := by
          rw [List.map_cons, List.nodup_cons] at hnodup
          intro he
          exact hnodup.1 (he ▸ List.mem_map_of_mem _ hr)
        exact hdisj p (List.mem_cons_self _ _) r (List.mem_cons_of_mem _ hr) hne pid hpid
      rw [lookup_groupFold_not_mem _ _ _ hnot, lookup_padFold_mem _ _ _ _ hpid]
    · refine ih _ hq ?_ ?_
      · intro a ha b hb hne pid2 hp2
        exact hdisj a (List.mem_cons_of_mem _ ha) b (List.mem_cons_of_mem _ hb) hne pid2 hp2
      · rw [List.map_cons, List.nodup_cons] at hnodup
        exact hnodup.2

lemma mem_groupFold {gs : List (String × ThicknessGroup)} {d : List (Int × String)}
    {e : Int × String}
    (h : e ∈ gs.foldl (fun d2 p => p.2.pad_ids.foldl (fun d3 q => dictInsert d3 q p.1) d2) d) :
    (∃ p ∈ gs, e.2 = p.1 ∧ e.1 ∈ p.2.pad_ids) ∨ e ∈ d := by
  induction gs generalizing d with
  | nil => exact Or.inr h
  | cons q gs ih =>
    rw [List.foldl_cons] at h
    rcases ih h with h2 | h2
    · obtain ⟨p, hp, h3⟩ := h2
      exact Or.inl ⟨p, List.mem_cons_of_mem _ hp, h3⟩
    · rcases mem_padFold h2 with h3 | h3
      · exact Or.inl ⟨q, List.mem_cons_self _ _, h3.2, h3.1⟩
      · exact Or.inr h3

lemma foldl_insert_fresh (gs : List (String × ThicknessGroup)) :
    ∀ acc : List (String × ThicknessGroup),
      (∀ p ∈ gs, p.1 ∉ acc.map Prod.fst) →
      (gs.map Prod.fst).Nodup →
      gs.foldl (fun d p => dictInsert d p.1 p.2) acc = acc ++ gs := by
  induction gs with
  | nil =>
    intro acc _ _
    simp
  | cons p gs ih =>
    intro acc hfresh hnodup
    rw [List.foldl_cons, dictInsert_of_not_mem _ _ _ (hfresh p (List.mem_cons_self _ _))]
    have hfresh2 : ∀ q ∈ gs, q.1 ∉ (acc ++ [(p.1, p.2)]).map Prod.fst := by
      intro q hq
      rw [List.map_append, List.mem_append]
      rintro (h2 | h2)
      · exact hfresh q (List.mem_cons_of_mem _ hq) h2
      · rw [List.map_cons, List.nodup_cons] at hnodup
        simp only [List.map_cons, List.map_nil, List.mem_singleton] at h2
        exact hnodup.1 (h2 ▸ List.mem_map_of_mem _ hq)
    have hnodup2 : (gs.map Prod.fst).Nodup := by
      rw [List.map_cons, List.nodup_cons] at hnodup
      exact hnodup.2
    rw [ih _ hfresh2 hnodup2]
    simp


/-- Loading the document saved from a group table rebuilds, from any
starting state, exactly the folds of the original groups over the
cleared dictionaries, succeeding at every entry (the timestamp
round-trips). -/
lemma load_loop_roundtrip (gs : List (String × ThicknessGroup)) :
    ∀ s : TMState, (∀ p ∈ gs, p.2.name = p.1) →
      load_groups_loop s
          (gs.map fun p => (p.1, ⟨p.2.pad_ids, p.2.thickness, isoformat p.2.created_at⟩))
        = (true,
           { s with
              groups := gs.foldl (fun d p => dictInsert d p.1 p.2) s.groups,
              pad_to_group := gs.foldl
                (fun d p => p.2.pad_ids.foldl (fun d2 pid => dictInsert d2 pid p.1) d)
                s.pad_to_group }) := by
  induction gs with
  | nil =>
    intro s _
    simp [load_groups_loop]
  | cons p gs ih =>
    intro s hn
    obtain ⟨n, g⟩ := p
    have hname : g.name = n := hn (n, g) (List.mem_cons_self _ _)
    have hg : (⟨n, g.pad_ids, g.thickness, g.created_at⟩ : ThicknessGroup) = g := by
      cases g
      cases hname
      rfl
    simp only [List.map_cons, load_groups_loop, fromisoformat_isoformat, hg]
    rw [ih _ fun q hq => hn q (List.mem_cons_of_mem _ hq)]
    rfl

end Thick

namespace Volume

/-- The VolumeCalculator of `src/volume_calculator.py`: its only state
is the `stepped_areas` dict mapping a pad id to an override
thickness. -/
structure VolumeCalculator where
  stepped_areas : List (Nat × ℚ)
deriving DecidableEq, Repr

/-- Embedding of `VolumeCalculator.calculate_pad_volume` (lines 8–11):
`self.stepped_areas.get(pad.id, pad.thickness)` times the pad's
area. -/
def calculate_pad_volume (vc : VolumeCalculator) (pad : Gerber.PadInfo) : ℚ :=
  pad.area * ((dictLookup vc.stepped_areas pad.id).getD pad.thickness)

/-- Embedding of `VolumeCalculator.calculate_total_volume` (lines
13–15): the sum of the per-pad volumes. -/
def calculate_total_volume (vc : VolumeCalculator) (pads : List Gerber.PadInfo) : ℚ :=
  (pads.map (calculate_pad_volume vc)).sum

/-- The effective thickness in the words of the specification: the
override when the pad has one, otherwise the Pad's own default
thickness. -/
def effectiveThickness (vc : VolumeCalculator) (pad : Gerber.PadInfo) : ℚ :=
  match dictLookup vc.stepped_areas pad.id with
  | some t => t
  | none => pad.thickness

end Volume

namespace Claims

open Gerber

/-- C1 (counterexample) — the claim states that move and draw operation
codes never create a pad and that only flash operations do; the stream
below contains one aperture definition, one selection, and a single
coordinate line whose operation code is `D01` (draw, not flash), yet the
parser emits one pad: `parse_file` enters the pad-creation branch for
every line starting with `X` or `Y` regardless of the operation code. -/
theorem claim_C1_counterexample :
    (parse_file 4 [GLine.adddef ⟨10, ApKind.C, 2, none⟩, GLine.dsel 10,
        GLine.coord (some 0) (some 0) OpCode.draw]).length = 1
    ∧ [GLine.adddef ⟨10, ApKind.C, 2, none⟩, GLine.dsel 10,
        GLine.coord (some 0) (some 0) OpCode.draw].countP GLine.isFlash = 0 := by
  constructor
  · norm_num [parse_file, parseLine, create_pad_from_command, dictInsert, dictLookup,
      Geometry.area, List.foldl]
  · decide

/-- C1 (amended) — for every positive area coefficient and every command
stream, the number of pads produced equals the number of coordinate
lines (any operation code: draw, move, flash or absent) that carry at
least one axis value and are reached while the currently held aperture
is defined with positive size; a selection naming an unknown aperture id
is ignored, keeping the previously held aperture. -/
theorem claim_C1_amended (pi : ℚ) (hpi : 0 < pi) (lines : List GLine) :
    (parse_file pi lines).length = validLineCount [] none lines := by
  unfold parse_file
  rw [parse_fold_length pi hpi lines]
  simp

/-- C1 witness: the amended count theorem applied to a concrete stream
containing a draw line, a flash line with an unknown aperture selected
in between, and a skipped malformed definition. -/
theorem claim_C1_witness :
    (0 : ℚ) < 4 ∧
    (parse_file 4 [GLine.adddef ⟨10, ApKind.C, 2, none⟩, GLine.badAdd, GLine.dsel 10,
        GLine.coord (some 5) none OpCode.draw, GLine.dsel 99,
        GLine.coord none (some 7) OpCode.flash]).length
      = validLineCount [] none [GLine.adddef ⟨10, ApKind.C, 2, none⟩, GLine.badAdd,
        GLine.dsel 10, GLine.coord (some 5) none OpCode.draw, GLine.dsel 99,
        GLine.coord none (some 7) OpCode.flash] :=
  ⟨by norm_num, claim_C1_amended 4 (by norm_num) _⟩

/-- C2 (code evaluation at the failing input) — the claim states that
pad identifiers are 1, 2, 3, … in list order; but the id assigned at
line 192 of `src/gerber_parser.py` is `len(self.pads) + 1`, and
`self.pads` is never appended to (the parser accumulates into the local
variable `pads`), so every pad receives id 1.  Two flashes through a
valid aperture yield ids `[1, 1]` where the claim requires `[1, 2]`. -/
theorem claim_C2_code_eval :
    (parse_file 4 [GLine.adddef ⟨10, ApKind.C, 2, none⟩, GLine.dsel 10,
        GLine.coord (some 0) (some 0) OpCode.flash,
        GLine.coord (some 1000000) (some 0) OpCode.flash]).map PadInfo.id = [1, 1] := by
  norm_num [parse_file, parseLine, create_pad_from_command, dictInsert, dictLookup,
    Geometry.area, List.foldl, List.map]

/-- Coordinates of a created pad are computed from the line alone: a
present axis is the raw integer divided by 1000000, a missing axis is 0
(lines 153–154 of `src/gerber_parser.py`); no cursor state exists. -/
lemma create_pad_coordinates (pi : ℚ) (n : Nat) (x0 y0 : Option Int)
    (ap : Aperture) (pad : PadInfo)
    (h : create_pad_from_command pi n x0 y0 ap = some pad) :
    pad.coordinates
      = ((match x0 with | some v => (v : ℚ) / 1000000 | none => 0),
         (match y0 with | some v => (v : ℚ) / 1000000 | none => 0)) := by
  rcases ap with ⟨i, k, s, sy⟩
  cases k <;> cases x0 <;> cases y0 <;>
    simp only [create_pad_from_command] at h <;>
    split_ifs at h <;>
    first
    | exact Option.noConfusion h
    | (rw [Option.some_inj] at h
       exact h ▸ rfl)

/-- C3 (counterexample) — the claim states that after setting X=10, Y=5
a subsequent line carrying only X=20 leaves the cursor at (20, 5) and a
pad flashed there is positioned at (20, 5); the parser instead positions
it at (20, 0): there is no cursor memory, a missing axis is read as 0. -/
theorem claim_C3_counterexample :
    ((parse_file 4 [GLine.adddef ⟨10, ApKind.C, 2, none⟩, GLine.dsel 10,
        GLine.coord (some 10000000) (some 5000000) OpCode.flash,
        GLine.coord (some 20000000) none OpCode.flash]).map PadInfo.coordinates)
      = [((10 : ℚ), (5 : ℚ)), ((20 : ℚ), (0 : ℚ))]
    ∧ ((20 : ℚ), (0 : ℚ)) ≠ ((20 : ℚ), (5 : ℚ)) := by
  constructor
  · norm_num [parse_file, parseLine, create_pad_from_command, dictInsert, dictLookup,
      Geometry.area, List.foldl, List.map]
  · norm_num

/-- C3 (amended) — cursor coordinates are not modal: each coordinate
line is interpreted in isolation, an axis the line does not mention is
read as 0 (not as its last set value), so a line carrying only X=xv
positions its pad at (xv/1000000, 0), and a line carrying only Y=yv
positions its pad at (0, yv/1000000). -/
theorem claim_C3_amended (pi : ℚ) (n : Nat) (ap : Aperture) :
    (∀ (xv : Int) (pad : PadInfo),
        create_pad_from_command pi n (some xv) none ap = some pad →
        pad.coordinates = ((xv : ℚ) / 1000000, 0))
  ∧ (∀ (yv : Int) (pad : PadInfo),
        create_pad_from_command pi n none (some yv) ap = some pad →
        pad.coordinates = (0, (yv : ℚ) / 1000000)) := by
  constructor
  · intro xv pad h
    exact create_pad_coordinates pi n (some xv) none ap pad h
  · intro yv pad h
    exact create_pad_coordinates pi n none (some yv) ap pad h

/-- C3 witness: a concrete X-only pad sits at (20, 0). -/
theorem claim_C3_witness :
    create_pad_from_command 4 0 (some 20000000) none ⟨10, ApKind.C, 2, none⟩
        = some { id := 1, shape_type := "circle", coordinates := (20, 0),
                 geometry := Geometry.disc (20, 0) 1, area := 4, volume := 3 / 5 }
    ∧ ({ id := 1, shape_type := "circle", coordinates := (20, 0),
         geometry := Geometry.disc (20, 0) 1, area := 4, volume := 3 / 5 }
          : PadInfo).coordinates
        = (((20000000 : Int) : ℚ) / 1000000, 0) := by
  have h : create_pad_from_command 4 0 (some 20000000) none ⟨10, ApKind.C, 2, none⟩
      = some { id := 1, shape_type := "circle", coordinates := (20, 0),
               geometry := Geometry.disc (20, 0) 1, area := 4, volume := 3 / 5 } := by
    norm_num [create_pad_from_command, Geometry.area]
  exact ⟨h, (claim_C3_amended 4 0 ⟨10, ApKind.C, 2, none⟩).1 20000000 _ h⟩

/-- C4 (counterexample) — the claim states that the format-spec line
determines the coordinate scale as 10^-decimalDigits, so that after a
3-fractional-digit format spec the raw coordinate 7550 becomes 7.550;
the parser instead ignores format-spec lines entirely (no branch of
`parse_file` matches them) and always divides raw coordinates by
10^6, so the pad sits at 0.00755, not 7.550. -/
theorem claim_C4_counterexample :
    ((parse_file 4 [GLine.fs 2 3, GLine.adddef ⟨10, ApKind.C, 2, none⟩, GLine.dsel 10,
        GLine.coord (some 7550) none OpCode.flash]).map (fun p => p.coordinates.1))
      = [151 / 20000]
    ∧ ((151 / 20000 : ℚ)) ≠ 151 / 20 := by
  constructor
  · norm_num [parse_file, parseLine, create_pad_from_command, dictInsert, dictLookup,
      Geometry.area, List.foldl, List.map]
  · norm_num

/-- C4 (amended) — format-spec lines are no-ops for the parser (the
`_scale` field set to 1.0 in `__init__` is never read), and every present
raw integer coordinate is scaled by the fixed factor 1/1000000,
regardless of any format specification in the stream. -/
theorem claim_C4_amended (pi : ℚ) :
    (∀ (a b : Nat) (rest : List GLine),
        parse_file pi (GLine.fs a b :: rest) = parse_file pi rest)
  ∧ (∀ (n : Nat) (xv : Int) (y0 : Option Int) (ap : Aperture) (pad : PadInfo),
        create_pad_from_command pi n (some xv) y0 ap = some pad →
        pad.coordinates.1 = (xv : ℚ) / 1000000) := by
  constructor
  · intro a b rest
    rfl
  · intro n xv y0 ap pad h
    rw [create_pad_coordinates pi n (some xv) y0 ap pad h]

/-- C4 witness: the amended scaling theorem applied to the raw
coordinate 7550 behind a (skipped) 3-fractional-digit format spec. -/
theorem claim_C4_witness :
    parse_file 4 [GLine.fs 2 3, GLine.adddef ⟨10, ApKind.C, 2, none⟩]
        = parse_file 4 [GLine.adddef ⟨10, ApKind.C, 2, none⟩]
    ∧ create_pad_from_command 4 0 (some 7550) none ⟨10, ApKind.C, 2, none⟩
        = some { id := 1, shape_type := "circle", coordinates := (151 / 20000, 0),
                 geometry := Geometry.disc (151 / 20000, 0) 1, area := 4, volume := 3 / 5 }
    ∧ ({ id := 1, shape_type := "circle", coordinates := (151 / 20000, 0),
         geometry := Geometry.disc (151 / 20000, 0) 1, area := 4, volume := 3 / 5 }
          : PadInfo).coordinates.1
        = ((7550 : Int) : ℚ) / 1000000 := by
  have h : create_pad_from_command 4 0 (some 7550) none ⟨10, ApKind.C, 2, none⟩
      = some { id := 1, shape_type := "circle", coordinates := (151 / 20000, 0),
               geometry := Geometry.disc (151 / 20000, 0) 1, area := 4, volume := 3 / 5 } := by
    norm_num [create_pad_from_command, Geometry.area]
  exact ⟨(claim_C4_amended 4).1 2 3 _, h, (claim_C4_amended 4).2 0 7550 none _ _ h⟩

/-- C8 (confirmed) — a pad-creation attempt carrying at least one axis
value through a circle aperture of positive size s yields, for any
positive area coefficient, a pad of shape kind "circle" whose geometry
is the disc of radius s/2 centred at the pad's coordinates and whose
area is pi·(s/2)²; and whenever the computed area is non-positive the
attempt yields no pad at all. -/
theorem claim_C8 (pi s : ℚ) (i n : Nat) (x0 y0 : Option Int)
    (hxy : x0.isSome = true ∨ y0.isSome = true) (hs : 0 < s) :
    (0 < pi →
      ∃ pad : PadInfo,
        create_pad_from_command pi n x0 y0 ⟨i, ApKind.C, s, none⟩ = some pad ∧
        pad.shape_type = "circle" ∧
        pad.geometry = Geometry.disc pad.coordinates (s / 2) ∧
        pad.area = pi * (s / 2) ^ 2)
  ∧ (pi * (s / 2) ^ 2 ≤ 0 →
      create_pad_from_command pi n x0 y0 ⟨i, ApKind.C, s, none⟩ = none) := by
  have hrad : ¬ s / 2 ≤ 0 := by
    push_neg
    linarith
  constructor
  · intro hpi
    have hA : ¬ pi * (s / 2) ^ 2 ≤ 0 := by
      push_neg
      have h2 : (0 : ℚ) < s / 2 := by linarith
      positivity
    rcases hxy with h | h <;> cases x0 <;> cases y0 <;>
      simp_all [create_pad_from_command, Geometry.area, hrad, hA]
  · intro hA
    rcases hxy with h | h <;> cases x0 <;> cases y0 <;>
      simp_all [create_pad_from_command, Geometry.area, hrad, hA]

/-- C8 witness: aperture size 0.254 (= 127/500) with coefficient
355/113 standing for pi; the produced area is pi·0.127². -/
theorem claim_C8_witness :
    ((some (0 : Int)).isSome = true ∨ (none : Option Int).isSome = true)
    ∧ (0 : ℚ) < 127 / 500
    ∧ ((0 < (355 / 113 : ℚ) →
          ∃ pad : PadInfo,
            create_pad_from_command (355 / 113) 0 (some 0) none
                ⟨10, ApKind.C, 127 / 500, none⟩ = some pad ∧
            pad.shape_type = "circle" ∧
            pad.geometry = Geometry.disc pad.coordinates (127 / 500 / 2) ∧
            pad.area = 355 / 113 * (127 / 500 / 2) ^ 2)
      ∧ (355 / 113 * ((127 : ℚ) / 500 / 2) ^ 2 ≤ 0 →
          create_pad_from_command (355 / 113) 0 (some 0) none
              ⟨10, ApKind.C, 127 / 500, none⟩ = none)) :=
  ⟨Or.inl rfl, by norm_num,
    claim_C8 (355 / 113) (127 / 500) 10 0 (some 0) none (Or.inl rfl) (by norm_num)⟩

/-- C5 (code evaluation at the failing input) — the claim states the
consistency invariant holds after every sequence of set_thickness,
remove_group, undo and redo from the empty manager; the four-operation
sequence below (evaluated at a fixed strftime oracle, though no group
name collision is involved) breaks it: redo of an undone remove_group
deletes the pads' index entries but leaves the restored group's pad set
intact, so pad 1 remains in the surviving "Restored_…" group while the
index no longer mentions it. -/
theorem claim_C5_code_eval :
    Thick.consistent
      (Thick.redo (fun _ => "115959")
        (Thick.undo (fun _ => "115959")
          (Thick.remove_group "Group_200um_0"
            (Thick.set_thickness [1] 200 Thick.TMState.init)).2).2).2
      = false := by decide

/-- C6 (code evaluation at the failing input) — the claim states that
set_thickness({1,2,3}, 200) followed by undo() restores pads 1, 2, 3 to
their prior effective thicknesses; starting from a state where pad 1
has thickness 100 and pad 2 has thickness 300, and with both restore
steps of the undo falling in the same wall-clock second (a constant
strftime oracle), the two restore groups share the name
"Restored_120000" and the second overwrites the first, so pad 1 ends at
thickness 300 although it had 100 immediately before the set. -/
theorem claim_C6_code_eval :
    Thick.get_pad_thickness
        (Thick.undo (fun _ => "120000")
          (Thick.set_thickness [1, 2, 3] 200
            (Thick.set_thickness [2] 300
              (Thick.set_thickness [1] 100 Thick.TMState.init)))).2
        1 150 = 300
    ∧ Thick.get_pad_thickness
        (Thick.set_thickness [2] 300
          (Thick.set_thickness [1] 100 Thick.TMState.init))
        1 150 = 100 := by
  constructor
  · decide
  · decide

/-- C7 (confirmed) — for every group table with unique names, each
group named by its key, and pairwise-disjoint pad sets, saving,
clearing the manager and loading back succeeds and yields exactly the
original groups (names, pad-id lists, thicknesses and creation
timestamps, in order) and rebuilds a pad-to-group index that is
two-way consistent with them. -/
theorem claim_C7 (st : Thick.TMState)
    (hnodup : (st.groups.map Prod.fst).Nodup)
    (hnames : ∀ p ∈ st.groups, p.2.name = p.1)
    (hdisj : Thick.GroupsDisjoint st.groups) :
    (Thick.load_from_file (Thick.clear st) (Thick.LoadInput.ok (Thick.save_data st))).1 = true
    ∧ (Thick.load_from_file (Thick.clear st) (Thick.LoadInput.ok (Thick.save_data st))).2.groups
        = st.groups
    ∧ Thick.consistent
        (Thick.load_from_file (Thick.clear st) (Thick.LoadInput.ok (Thick.save_data st))).2
        = true := by
  have key : Thick.load_from_file (Thick.clear st) (Thick.LoadInput.ok (Thick.save_data st))
      = (true,
         { Thick.clear st with
            groups := st.groups,
            pad_to_group := st.groups.foldl
              (fun d p => p.2.pad_ids.foldl (fun d2 pid => dictInsert d2 pid p.1) d) [] }) := by
    show Thick.load_groups_loop _ _ = _
    rw [Thick.load_loop_roundtrip st.groups _ hnames]
    rw [show ({ Thick.clear st with groups := [], pad_to_group := [] } : Thick.TMState).groups
        = [] from rfl]
    rw [Thick.foldl_insert_fresh st.groups [] (by simp) hnodup]
    rfl
  rw [key]
  refine ⟨rfl, rfl, ?_⟩
  unfold Thick.consistent
  rw [decide_eq_true_eq]
  refine ⟨hdisj, ?_, ?_⟩
  · intro p hp pid hpid
    exact Thick.lookup_groupFold_mem st.groups [] p pid hp hpid hdisj hnodup
  · intro e he
    rcases Thick.mem_groupFold he with ⟨p, hp, h2, h3⟩ | h2
    · exact ⟨p.2, by rw [h2]; exact Thick.dictLookup_of_mem_nodup hnodup hp, h3⟩
    · cases h2

/-- C7 witness: a concrete two-group table round-trips. -/
theorem claim_C7_witness :
    (((⟨[("A", ⟨"A", [1, 2], 200, 0⟩), ("B", ⟨"B", [3], 300, 1⟩)],
        [(1, "A"), (2, "A"), (3, "B")], [], [], 2⟩ : Thick.TMState).groups.map
          Prod.fst).Nodup
      ∧ (∀ p ∈ (⟨[("A", ⟨"A", [1, 2], 200, 0⟩), ("B", ⟨"B", [3], 300, 1⟩)],
          [(1, "A"), (2, "A"), (3, "B")], [], [], 2⟩ : Thick.TMState).groups,
          p.2.name = p.1)
      ∧ Thick.GroupsDisjoint (⟨[("A", ⟨"A", [1, 2], 200, 0⟩), ("B", ⟨"B", [3], 300, 1⟩)],
          [(1, "A"), (2, "A"), (3, "B")], [], [], 2⟩ : Thick.TMState).groups)
    ∧ ((Thick.load_from_file
          (Thick.clear ⟨[("A", ⟨"A", [1, 2], 200, 0⟩), ("B", ⟨"B", [3], 300, 1⟩)],
            [(1, "A"), (2, "A"), (3, "B")], [], [], 2⟩)
          (Thick.LoadInput.ok (Thick.save_data
            ⟨[("A", ⟨"A", [1, 2], 200, 0⟩), ("B", ⟨"B", [3], 300, 1⟩)],
              [(1, "A"), (2, "A"), (3, "B")], [], [], 2⟩))).1 = true
      ∧ (Thick.load_from_file
          (Thick.clear ⟨[("A", ⟨"A", [1, 2], 200, 0⟩), ("B", ⟨"B", [3], 300, 1⟩)],
            [(1, "A"), (2, "A"), (3, "B")], [], [], 2⟩)
          (Thick.LoadInput.ok (Thick.save_data
            ⟨[("A", ⟨"A", [1, 2], 200, 0⟩), ("B", ⟨"B", [3], 300, 1⟩)],
              [(1, "A"), (2, "A"), (3, "B")], [], [], 2⟩))).2.groups
          = (⟨[("A", ⟨"A", [1, 2], 200, 0⟩), ("B", ⟨"B", [3], 300, 1⟩)],
              [(1, "A"), (2, "A"), (3, "B")], [], [], 2⟩ : Thick.TMState).groups
      ∧ Thick.consistent
          (Thick.load_from_file
            (Thick.clear ⟨[("A", ⟨"A", [1, 2], 200, 0⟩), ("B", ⟨"B", [3], 300, 1⟩)],
              [(1, "A"), (2, "A"), (3, "B")], [], [], 2⟩)
            (Thick.LoadInput.ok (Thick.save_data
              ⟨[("A", ⟨"A", [1, 2], 200, 0⟩), ("B", ⟨"B", [3], 300, 1⟩)],
                [(1, "A"), (2, "A"), (3, "B")], [], [], 2⟩))).2 = true) :=
  ⟨⟨by decide, by decide, by decide⟩,
    claim_C7 ⟨[("A", ⟨"A", [1, 2], 200, 0⟩), ("B", ⟨"B", [3], 300, 1⟩)],
      [(1, "A"), (2, "A"), (3, "B")], [], [], 2⟩ (by decide) (by decide) (by decide)⟩

/-- C10 (counterexample) — the claim states that a failing
load_from_file leaves the manager exactly as it was; but the code
clears `groups` and `pad_to_group` right after JSON parsing and before
reading `data['groups']`, so loading a valid JSON document with no
`groups` key (for example the file `{}`) returns False with the
manager wiped, not restored. -/
theorem claim_C10_counterexample :
    (Thick.load_from_file
        ⟨[("G", ⟨"G", [1], 200, 0⟩)], [(1, "G")], [], [], 5⟩
        (Thick.LoadInput.ok ⟨none⟩)).1 = false
    ∧ (Thick.load_from_file
        ⟨[("G", ⟨"G", [1], 200, 0⟩)], [(1, "G")], [], [], 5⟩
        (Thick.LoadInput.ok ⟨none⟩)).2
      ≠ ⟨[("G", ⟨"G", [1], 200, 0⟩)], [(1, "G")], [], [], 5⟩ := by
  constructor
  · rfl
  · decide

/-- C10 (amended) — load_from_file is atomic only for failures that
precede JSON parsing: an unreadable file or invalid JSON returns
failure with the state exactly as before the call; once a document
parses, the groups and the pad-to-group index are cleared before any
content check, so a document without a `groups` key (or with a
malformed entry) returns failure with the manager cleared or partially
repopulated. -/
theorem claim_C10_amended (st : Thick.TMState) :
    (∀ input, input = Thick.LoadInput.unreadable ∨ input = Thick.LoadInput.badJson →
        Thick.load_from_file st input = (false, st))
    ∧ ((Thick.load_from_file st (Thick.LoadInput.ok ⟨none⟩)).1 = false
        ∧ (Thick.load_from_file st (Thick.LoadInput.ok ⟨none⟩)).2.groups = []
        ∧ (Thick.load_from_file st (Thick.LoadInput.ok ⟨none⟩)).2.pad_to_group = []) := by
  refine ⟨?_, rfl, rfl, rfl⟩
  rintro input (rfl | rfl) <;> rfl

/-- C10 witness: an unreadable file leaves a concrete one-group
manager untouched. -/
theorem claim_C10_witness :
    (Thick.LoadInput.unreadable = Thick.LoadInput.unreadable
      ∨ Thick.LoadInput.unreadable = Thick.LoadInput.badJson)
    ∧ Thick.load_from_file
        ⟨[("G", ⟨"G", [1], 200, 0⟩)], [(1, "G")], [], [], 5⟩
        Thick.LoadInput.unreadable
      = (false, ⟨[("G", ⟨"G", [1], 200, 0⟩)], [(1, "G")], [], [], 5⟩) :=
  ⟨Or.inl rfl,
    (claim_C10_amended ⟨[("G", ⟨"G", [1], 200, 0⟩)], [(1, "G")], [], [], 5⟩).1
      Thick.LoadInput.unreadable (Or.inl rfl)⟩

/-- C9 (confirmed) — for every Pad and every override state, the pad's
volume is its area times its effective thickness (the override when
present, else the Pad's default); the aggregate volume is the sum of
the per-pad volumes; and a pad of zero area contributes volume zero
without error. -/
theorem claim_C9 (vc : Volume.VolumeCalculator) (pads : List Gerber.PadInfo)
    (pad : Gerber.PadInfo) :
    Volume.calculate_pad_volume vc pad = pad.area * Volume.effectiveThickness vc pad
    ∧ Volume.calculate_total_volume vc pads
        = (pads.map fun p => Volume.calculate_pad_volume vc p).sum
    ∧ (pad.area = 0 → Volume.calculate_pad_volume vc pad = 0) := by
  refine ⟨?_, rfl, ?_⟩
  · unfold Volume.calculate_pad_volume Volume.effectiveThickness
    cases dictLookup vc.stepped_areas pad.id <;> rfl
  · intro h
    unfold Volume.calculate_pad_volume
    rw [h, zero_mul]

/-- C9 witness: a zero-area pad under an override table contributes
zero volume. -/
theorem claim_C9_witness :
    ({ id := 3, shape_type := "circle", coordinates := (0, 0),
       geometry := Gerber.Geometry.disc (0, 0) 1, area := 0, volume := 0 }
        : Gerber.PadInfo).area = 0
    ∧ Volume.calculate_pad_volume ⟨[(1, 2)]⟩
        { id := 3, shape_type := "circle", coordinates := (0, 0),
          geometry := Gerber.Geometry.disc (0, 0) 1, area := 0, volume := 0 } = 0 :=
  ⟨rfl,
    (claim_C9 ⟨[(1, 2)]⟩ []
      { id := 3, shape_type := "circle", coordinates := (0, 0),
        geometry := Gerber.Geometry.disc (0, 0) 1, area := 0, volume := 0 }).2.2 rfl⟩

end Claims

end SolderVolume
